import Mathlib

/-!
# Verification of the lost-items Flask application (`app.py`)

A shallow embedding of the data model and the request handlers of the
campus lost-and-found application.  The persisted state (`DB`) mirrors the
four-table SQLAlchemy schema; each Flask handler becomes a Lean function
from the state, the session and the request parameters to an `Outcome`
(new state, new session, flashed messages, HTTP response).  The password
hasher (`werkzeug.security`) and the Cloudinary blob store are external
collaborators, so they enter as function parameters.

Only the POST branches of the handlers are modelled: the GET branches
render a template and touch neither the database nor the session.
-/

namespace LostFound

/-- Row of the `student` table (`class Student`): `student_id` is the
primary key; `password_hash` stores the salted hash set by `set_password`. -/
structure Student where
  student_id : String
  name : String
  email : String
  phone : String
  password_hash : String
  deriving Repr, DecidableEq

/-- Row of the `item` table (`class LostItem`): `status` has column default
`'pending'`; `image_filename` stores a path or URL returned by the blob store. -/
structure LostItem where
  id : Nat
  name : String
  description : String
  pickup_time : String
  location : String
  status : String
  image_filename : String
  deriving Repr, DecidableEq

/-- Row of the `claim` table (`class Claim`): `status` has column default
`'pending'`; `item_id` and `student_id` are foreign keys (not enforced on
the claim-creation path).  The two timestamp columns are irrelevant to the
claims checked here and are omitted. -/
structure Claim where
  id : Nat
  student_name : String
  student_id : String
  item_id : Nat
  phone : String
  status : String
  reason : String
  deriving Repr, DecidableEq

/-- The persisted database state.  The `administrator` table is declared in
the source but never read or written by any handler (the admin login
compares against literals), so it is omitted.  `nextItemId` / `nextClaimId`
model the autoincrement primary keys. -/
structure DB where
  students : List Student
  items : List LostItem
  claims : List Claim
  nextItemId : Nat
  nextClaimId : Nat
  deriving Repr, DecidableEq

/-- The empty database produced by `db.create_all()` on a fresh deployment. -/
def dbEmpty : DB :=
  { students := [], items := [], claims := [], nextItemId := 1, nextClaimId := 1 }

/-- The HTTP-level result of a handler. `serverError` stands for an
uncaught Python exception (Flask turns it into a 500 response). -/
inductive Response where
  | redirect (target : String)
  | render (template : String)
  | notFound
  | serverError (err : String)
  deriving Repr, DecidableEq

/-- Observable result of one request: the database afterwards, the session
afterwards (`session['student_id']`, `none` when absent), the messages
flashed during the request, and the response. -/
structure Outcome where
  db : DB
  session : Option String
  flashes : List String
  response : Response
  deriving Repr, DecidableEq

/-- Python `str.strip()`: removes leading and trailing whitespace.  Defined
by structural recursion over the character list so that it evaluates inside
the kernel. -/
def pyStrip (s : String) : String :=
  ⟨((s.data.dropWhile Char.isWhitespace).reverse.dropWhile Char.isWhitespace).reverse⟩

/-- The failure branch of `student_login` (`app.py` lines 117-119): one
generic message and a redirect back to the login form, for both an unknown
student_id and a wrong password. -/
def loginFailure (db : DB) (sess : Option String) : Outcome :=
  { db := db, session := sess, flashes := ["您的学号或者密码错误！请检查"],
    response := .redirect "student_login" }

/-- `student_login` (`app.py` lines 106-120).  `check_password_hash` is the
werkzeug verifier, passed as a parameter.  `filter_by(...).first()` becomes
`List.find?`; on success the session receives the student's identifier. -/
def student_login (check_password_hash : String → String → Bool)
    (db : DB) (sess : Option String) (student_id password : String) : Outcome :=
  match db.students.find? (fun s => s.student_id == student_id) with
  | some student =>
    if check_password_hash student.password_hash password then
      { db := db, session := some student.student_id,
        flashes := ["您已成功登录！"], response := .redirect "student_dashboard" }
    else loginFailure db sess
  | none => loginFailure db sess

/-- `student_register` (`app.py` lines 122-156).  `generate_password_hash`
is the werkzeug hasher, passed as a parameter.  Two validation checks flash
a message but do not return (the blank-field check even builds a redirect
and discards it), so control falls through them; only the password-mismatch
check returns.  When the duplicate-id fall-through reaches the insert, the
`student_id` primary key is violated and `db.session.commit()` raises
`IntegrityError` (an uncaught 500); the constraint keeps the row out. -/
def student_register (generate_password_hash : String → String)
    (db : DB) (sess : Option String)
    (name student_id email phone password confirm_password : String) : Outcome :=
  let name := pyStrip name
  let blankMsg : List String :=
    if name == "" || student_id == "" || email == "" || phone == ""
        || password == "" || confirm_password == "" then
      ["请先输入需要填写的信息！"]
    else []
  let dupMsg : List String :=
    if (db.students.find? (fun s => s.student_id == student_id)).isSome then
      ["该学生已注册！请直接登录！"]
    else []
  if password != confirm_password then
    { db := db, session := sess, flashes := blankMsg ++ dupMsg ++ ["两次输入的密码不一致！"],
      response := .render "student_register.html" }
  else if (db.students.find? (fun s => s.student_id == student_id)).isSome then
    { db := db, session := sess, flashes := blankMsg ++ dupMsg,
      response := .serverError "IntegrityError: duplicate primary key student.student_id" }
  else
    { db := { db with students := db.students ++
        [{ student_id := student_id, name := name, email := email, phone := phone,
           password_hash := generate_password_hash password }] },
      session := sess,
      flashes := blankMsg ++ dupMsg ++ ["您已成功注册，请返回首页登录"],
      response := .redirect "student_login" }

/-- `student_alterpassword` (`app.py` lines 158-176).  After the
password-mismatch check, the lookup `Student.query.filter_by(student_id)`
passes a positional argument to `filter_by`, which accepts keyword
arguments only, so that branch raises `TypeError` (a 500).  Even read
charitably, the success path assigns the hash to `student.password` — not
the mapped column `password_hash` — and the handler never calls
`db.session.commit()`, so no branch writes the database. -/
def student_alterpassword (db : DB) (sess : Option String)
    (student_id new_password confirm_password : String) : Outcome :=
  let _student_id := pyStrip student_id
  let new_password := pyStrip new_password
  let confirm_password := pyStrip confirm_password
  if new_password != confirm_password then
    { db := db, session := sess, flashes := ["两次输入的密码不一致！"],
      response := .redirect "student_alterpassword" }
  else
    { db := db, session := sess, flashes := [],
      response := .serverError "TypeError: filter_by accepts keyword arguments only" }

/-- `claim_item` (`app.py` lines 218-239), POST branch.  `get_or_404` on the
item becomes a `find?` whose `none` case is a 404.  All four form fields are
stripped; any blank field flashes and redirects with no state change;
otherwise a `Claim` row with status `'pending'` is inserted. -/
def claim_item (db : DB) (sess : Option String) (item_id : Nat)
    (student_name student_id phone reason : String) : Outcome :=
  match db.items.find? (fun it => it.id == item_id) with
  | none => { db := db, session := sess, flashes := [], response := .notFound }
  | some _item =>
    let student_name := pyStrip student_name
    let student_id := pyStrip student_id
    let phone := pyStrip phone
    let reason := pyStrip reason
    if student_name == "" || student_id == "" || phone == "" || reason == "" then
      { db := db, session := sess, flashes := ["请将信息填写完整！"],
        response := .redirect "claim_item" }
    else
      { db := { db with
          claims := db.claims ++
            [{ id := db.nextClaimId, student_name := student_name,
               student_id := student_id, item_id := item_id, phone := phone,
               status := "pending", reason := reason }],
          nextClaimId := db.nextClaimId + 1 },
        session := sess, flashes := ["认领申请提交成功，请等待工作人员审核"],
        response := .redirect "items_detail" }

/-- `administrator_login` (`app.py` lines 241-252).  Credentials are
compared against embedded literals; nothing is stored in the session. -/
def administrator_login (db : DB) (sess : Option String)
    (email password : String) : Outcome :=
  if email == "zhou39506@gmail.com" && password == "zsj123456" then
    { db := db, session := sess, flashes := ["您已成功登录！"],
      response := .redirect "administrator_dashboard" }
  else
    { db := db, session := sess, flashes := ["邮箱或密码输入错误！请重新输入！"],
      response := .redirect "administrator_login" }

/-- `administrator_dashboard` (`app.py` lines 254-256): renders a template,
reads nothing. -/
def administrator_dashboard (db : DB) (sess : Option String) : Outcome :=
  { db := db, session := sess, flashes := [],
    response := .render "administrator_dashboard.html" }

/-- `upload_image_to_cloudinary` (`app.py` lines 266-272).  The Cloudinary
uploader is the parameter `cloudinary_upload`: it returns `some secure_url`
on success and `none` when the upload raised (the handler catches the
exception, logs and returns `None`) or the response lacked a URL. -/
def upload_image_to_cloudinary (cloudinary_upload : String → Option String)
    (file : String) : Option String :=
  cloudinary_upload file

/-- `administrator_upload_items` (`app.py` lines 275-306), POST branch.
A missing or blank field (Python `all` treats `''` and `None` as false)
flashes and redirects.  If the blob store returns no reference the handler
redirects before any row is built; otherwise a `LostItem` row is inserted
whose `status` takes the column default `'pending'` and whose
`image_filename` is the returned URL. -/
def administrator_upload_items (cloudinary_upload : String → Option String)
    (db : DB) (sess : Option String)
    (item_name description pickup_time location : String)
    (image_file : Option String) : Outcome :=
  match image_file with
  | none =>
    { db := db, session := sess, flashes := ["请填写完整所有信息并上传图片"],
      response := .redirect "administrator_upload_items" }
  | some file =>
    if item_name == "" || description == "" || pickup_time == "" || location == "" then
      { db := db, session := sess, flashes := ["请填写完整所有信息并上传图片"],
        response := .redirect "administrator_upload_items" }
    else
      match upload_image_to_cloudinary cloudinary_upload file with
      | none =>
        { db := db, session := sess, flashes := ["图片上传失败，请稍后重试"],
          response := .redirect "administrator_upload_items" }
      | some image_url =>
        { db := { db with
            items := db.items ++
              [{ id := db.nextItemId, name := item_name, description := description,
                 pickup_time := pickup_time, location := location,
                 status := "pending", image_filename := image_url }],
            nextItemId := db.nextItemId + 1 },
          session := sess, flashes := ["失物信息上传成功"],
          response := .redirect "administrator_dashboard" }

/-- Outcome of `delete_item`, extended with the local filesystem state
(`localFiles`, the set of paths for which `os.path.exists` is true) and a
count of `os.remove` calls — the handler's only blob-delete mechanism. -/
structure FsOutcome where
  db : DB
  session : Option String
  flashes : List String
  response : Response
  blobDeleteCalls : Nat
  localFiles : List String
  deriving Repr, DecidableEq

/-- `delete_item` (`app.py` lines 355-370).  Deletes every `Claim` whose
`item_id` matches, then the item, then commits; afterwards it calls
`os.remove(item.image_filename)` only when `os.path.exists` holds of the
stored reference — i.e. only when the reference is an existing local path,
never for a remote URL. -/
def delete_item (db : DB) (sess : Option String) (localFiles : List String)
    (item_id : Nat) : FsOutcome :=
  match db.items.find? (fun it => it.id == item_id) with
  | none =>
    { db := db, session := sess, flashes := [], response := .notFound,
      blobDeleteCalls := 0, localFiles := localFiles }
  | some item =>
    let db' : DB := { db with
      claims := db.claims.filter (fun c => !(c.item_id == item_id)),
      items := db.items.filter (fun it => !(it.id == item_id)) }
    if localFiles.contains item.image_filename then
      { db := db', session := sess, flashes := ["您已成功删除该失物和相关认领记录！"],
        response := .redirect "administrator_view_items",
        blobDeleteCalls := 1,
        localFiles := localFiles.filter (fun f => !(f == item.image_filename)) }
    else
      { db := db', session := sess, flashes := ["您已成功删除该失物和相关认领记录！"],
        response := .redirect "administrator_view_items",
        blobDeleteCalls := 0, localFiles := localFiles }

/-- `administrator_review_claim_items` (`app.py` lines 373-395), POST
branch.  `get_or_404` on the claim and then on its item; decision
`'approved'` / `'rejected'` updates the claim row (by primary key) and
commits.  Any other decision flashes an error and then calls
`url_for('administrator_review_claim_items')` without the route's required
`claim_id` argument, which raises `BuildError` (a 500); no assignment or
commit has happened on that path, so the database is untouched. -/
def administrator_review_claim_items (db : DB) (sess : Option String)
    (claim_id : Nat) (decision : String) : Outcome :=
  match db.claims.find? (fun c => c.id == claim_id) with
  | none => { db := db, session := sess, flashes := [], response := .notFound }
  | some claim =>
    match db.items.find? (fun it => it.id == claim.item_id) with
    | none => { db := db, session := sess, flashes := [], response := .notFound }
    | some _item =>
      if decision == "approved" then
        { db := { db with claims := db.claims.map (fun c =>
              if c.id == claim_id then { c with status := "approved" } else c) },
          session := sess, flashes := ["审核结果已成功保存"],
          response := .redirect "administrator_view_items" }
      else if decision == "rejected" then
        { db := { db with claims := db.claims.map (fun c =>
              if c.id == claim_id then { c with status := "rejected" } else c) },
          session := sess, flashes := ["审核结果已成功保存"],
          response := .redirect "administrator_view_items" }
      else
        { db := db, session := sess, flashes := ["未知操作，请重试！"],
          response := .serverError "BuildError: url_for needs claim_id" }

/-- Substring occurrence on character lists, the semantics of SQL
`LIKE '%keyword%'` produced by `LostItem.name.contains(keyword)`. -/
def infixHit (pat : List Char) : List Char → Bool
  | [] => pat.isEmpty
  | c :: rest => pat.isPrefixOf (c :: rest) || infixHit pat rest

/-- `strContains s keyword` holds when `keyword` occurs in `s` as a
contiguous substring. -/
def strContains (s keyword : String) : Bool :=
  infixHit keyword.data s.data

/-- The unpaginated query of `student_search_items` (`app.py` lines
193-196): an empty (stripped) keyword selects every item, a non-empty one
filters by name containment. -/
def searchBase (db : DB) (keyword : String) : List LostItem :=
  let keyword := pyStrip keyword
  if keyword = "" then db.items
  else db.items.filter (fun it => strContains it.name keyword)

/-- The `ORDER BY pickup_time DESC` relation: `a` comes before `b` when
`b.pickup_time ≤ a.pickup_time` in lexical string order (`pickup_time` is a
free-text column). -/
def pickupDesc (a b : LostItem) : Prop := b.pickup_time ≤ a.pickup_time

instance : DecidableRel pickupDesc :=
  fun a b => inferInstanceAs (Decidable (b.pickup_time ≤ a.pickup_time))

instance : IsTotal LostItem pickupDesc :=
  ⟨fun a b => le_total b.pickup_time a.pickup_time⟩

instance : IsTrans LostItem pickupDesc :=
  ⟨fun _ _ _ hab hbc => le_trans hbc hab⟩

/-- The matching items in `ORDER BY pickup_time DESC` order. -/
def searchSorted (db : DB) (keyword : String) : List LostItem :=
  List.insertionSort pickupDesc (searchBase db keyword)

/-- Flask-SQLAlchemy `paginate(page=page, per_page=4, error_out=False)`:
a page below 1 is clamped to 1, and the page's items are rows
`(page-1)*4 .. (page-1)*4+3` of the query — empty when the offset is past
the end, never an error. -/
def paginate (l : List LostItem) (page : Int) : List LostItem :=
  let p : Nat := if page < 1 then 1 else page.toNat
  (l.drop ((p - 1) * 4)).take 4

/-- `student_search_items` (`app.py` lines 188-211): the list of items the
route renders for the given raw keyword and page arguments. -/
def student_search_items (db : DB) (keyword : String) (page : Int) : List LostItem :=
  paginate (searchSorted db keyword) page

/-- `administrator_view_items` (`app.py` lines 325-346): same query and
pagination as `student_search_items` (the rendered item list is
`student_search_items db keyword page`), different template, no session
read and no database write. -/
def administrator_view_items (db : DB) (sess : Option String)
    (_keyword : String) (_page : Int) : Outcome :=
  { db := db, session := sess, flashes := [],
    response := .render "administrator_view_items.html" }

/-- The part of an `Outcome` observable to the client apart from the
session: database, flashed messages and response. -/
def obs (o : Outcome) : DB × List String × Response :=
  (o.db, o.flashes, o.response)

/-- The session-free part of an `FsOutcome`. -/
def obsFs (o : FsOutcome) : DB × List String × Response × Nat × List String :=
  (o.db, o.flashes, o.response, o.blobDeleteCalls, o.localFiles)

/-- An item whose image reference is a Cloudinary URL, exactly what
`administrator_upload_items` stores in `image_filename`. -/
def itemWithURL : LostItem :=
  { id := 1, name := "wallet", description := "black leather",
    pickup_time := "2024-01-01 10:00", location := "library",
    status := "pending",
    image_filename := "https://res.cloudinary.com/demo/lost_items/1.png" }

/-- A database holding `itemWithURL` and two claims referencing it. -/
def dbWithItemAndClaims : DB :=
  { students := [],
    items := [itemWithURL],
    claims :=
      [{ id := 1, student_name := "Ann", student_id := "s1", item_id := 1,
         phone := "123", status := "pending", reason := "mine" },
       { id := 2, student_name := "Bob", student_id := "s2", item_id := 1,
         phone := "456", status := "pending", reason := "lost it" }],
    nextItemId := 2, nextClaimId := 3 }

/-- A student whose stored hash verifies the password `"pw"` under the
hasher `fun p => "hash:" ++ p`. -/
def annStudent : Student :=
  { student_id := "s1", name := "Ann", email := "a@b", phone := "1",
    password_hash := "hash:pw" }

/-- A database holding only `annStudent`. -/
def dbOneStudent : DB :=
  { students := [annStudent], items := [], claims := [], nextItemId := 1,
    nextClaimId := 1 }

/-- One request-handling transition between database states: `Step a b`
holds when some handler, run on database `a` with any session, form data,
hasher, blob store and filesystem, leaves database `b`. -/
inductive Step : DB → DB → Prop where
  | login (chk : String → String → Bool) (db : DB) (sess : Option String)
      (sid pw : String) : Step db (student_login chk db sess sid pw).db
  | register (gen : String → String) (db : DB) (sess : Option String)
      (n sid e ph pw cpw : String) :
      Step db (student_register gen db sess n sid e ph pw cpw).db
  | alterpassword (db : DB) (sess : Option String) (sid np cp : String) :
      Step db (student_alterpassword db sess sid np cp).db
  | claim (db : DB) (sess : Option String) (iid : Nat) (sn sid ph r : String) :
      Step db (claim_item db sess iid sn sid ph r).db
  | adminLogin (db : DB) (sess : Option String) (e pw : String) :
      Step db (administrator_login db sess e pw).db
  | dashboard (db : DB) (sess : Option String) :
      Step db (administrator_dashboard db sess).db
  | upload (cloud : String → Option String) (db : DB) (sess : Option String)
      (n d t l : String) (img : Option String) :
      Step db (administrator_upload_items cloud db sess n d t l img).db
  | deleteItem (db : DB) (sess : Option String) (fs : List String) (iid : Nat) :
      Step db (delete_item db sess fs iid).db
  | review (db : DB) (sess : Option String) (cid : Nat) (dec : String) :
      Step db (administrator_review_claim_items db sess cid dec).db
  | viewItems (db : DB) (sess : Option String) (kw : String) (pg : Int) :
      Step db (administrator_view_items db sess kw pg).db

/-- Databases reachable from a fresh deployment by handler requests. -/
inductive Reachable : DB → Prop where
  | init : Reachable dbEmpty
  | step {a b : DB} : Reachable a → Step a b → Reachable b

/-! ## Helper lemmas -/

theorem student_login_db (chk : String → String → Bool) (db : DB)
    (sess : Option String) (sid pw : String) :
    (student_login chk db sess sid pw).db = db := by
  unfold student_login
  cases db.students.find? (fun s => s.student_id == sid) with
  | none => rfl
  | some s =>
    by_cases h : chk s.password_hash pw = true <;> simp [h, loginFailure]

theorem student_register_items (gen : String → String) (db : DB)
    (sess : Option String) (n sid e ph pw cpw : String) :
    (student_register gen db sess n sid e ph pw cpw).db.items = db.items := by
  unfold student_register
  dsimp only
  repeat' split
  all_goals rfl

theorem student_alterpassword_db (db : DB) (sess : Option String)
    (sid np cp : String) :
    (student_alterpassword db sess sid np cp).db = db := by
  unfold student_alterpassword
  dsimp only
  split <;> rfl

theorem claim_item_items (db : DB) (sess : Option String) (iid : Nat)
    (sn sid ph r : String) :
    (claim_item db sess iid sn sid ph r).db.items = db.items := by
  unfold claim_item
  cases db.items.find? (fun it => it.id == iid) with
  | none => rfl
  | some it => dsimp only; split <;> rfl

theorem administrator_login_db (db : DB) (sess : Option String)
    (e pw : String) : (administrator_login db sess e pw).db = db := by
  unfold administrator_login
  split <;> rfl

theorem upload_items_mem (cloud : String → Option String) (db : DB)
    (sess : Option String) (n d t l : String) (img : Option String) :
    ∀ it ∈ (administrator_upload_items cloud db sess n d t l img).db.items,
      it ∈ db.items ∨ it.status = "pending" := by
  unfold administrator_upload_items
  cases img with
  | none => exact fun it hit => Or.inl hit
  | some f =>
    dsimp only
    split
    · exact fun it hit => Or.inl hit
    · unfold upload_image_to_cloudinary
      cases cloud f with
      | none => exact fun it hit => Or.inl hit
      | some url =>
        intro it hit
        dsimp only at hit
        rcases List.mem_append.mp hit with h | h
        · exact Or.inl h
        · right
          simp only [List.mem_singleton] at h
          rw [h]

theorem delete_item_items_mem (db : DB) (sess : Option String)
    (fs : List String) (iid : Nat) :
    ∀ it ∈ (delete_item db sess fs iid).db.items, it ∈ db.items := by
  unfold delete_item
  cases db.items.find? (fun it => it.id == iid) with
  | none => exact fun it hit => hit
  | some item =>
    dsimp only
    split <;> exact fun it hit => (List.mem_filter.mp hit).1

theorem review_items (db : DB) (sess : Option String) (cid : Nat)
    (dec : String) :
    (administrator_review_claim_items db sess cid dec).db.items = db.items := by
  unfold administrator_review_claim_items
  cases db.claims.find? (fun c => c.id == cid) with
  | none => rfl
  | some c =>
    dsimp only
    cases db.items.find? (fun it => it.id == c.item_id) with
    | none => rfl
    | some it =>
      dsimp only
      split
      · rfl
      · split <;> rfl

theorem find?_map_update (l : List Claim) (cid : Nat) (st : String) (c : Claim)
    (h : l.find? (fun x => x.id == cid) = some c) :
    (l.map (fun x => if x.id == cid then { x with status := st } else x)).find?
        (fun x => x.id == cid) = some { c with status := st } := by
  induction l with
  | nil => simp at h
  | cons a l ih =>
    rw [List.map_cons]
    cases ha : a.id == cid with
    | true =>
      simp only [List.find?_cons, ha, Option.some.injEq] at h
      subst h
      simp [List.find?_cons, ha]
    | false =>
      simp only [List.find?_cons, ha] at h
      simp only [List.find?_cons, ha, Bool.false_eq_true, if_false]
      exact ih h

theorem map_update_self (l : List Claim) (cid : Nat) (st : String) :
    ((l.map (fun x => if x.id == cid then { x with status := st } else x)).map
        (fun x => if x.id == cid then { x with status := st } else x))
      = l.map (fun x => if x.id == cid then { x with status := st } else x) := by
  rw [List.map_map]
  apply List.map_congr_left
  intro x _
  by_cases h : (x.id == cid) = true
  · simp [Function.comp, h]
  · simp [Function.comp, h]

/-- `administrator_review_claim_items` on an existing claim and item with a
valid decision: the claim row's status is overwritten (by primary key) and
the rest of the outcome is the success flash and redirect. -/
theorem review_valid (db : DB) (sess : Option String) (cid : Nat)
    (decision : String) (hd : decision = "approved" ∨ decision = "rejected")
    (c : Claim) (hc : db.claims.find? (fun x => x.id == cid) = some c)
    (it : LostItem)
    (hi : db.items.find? (fun x => x.id == c.item_id) = some it) :
    administrator_review_claim_items db sess cid decision
      = { db := { db with claims := db.claims.map (fun x =>
            if x.id == cid then { x with status := decision } else x) },
          session := sess, flashes := ["审核结果已成功保存"],
          response := .redirect "administrator_view_items" } := by
  have hre : ("rejected" == "approved") = false := by decide
  rcases hd with h | h <;> subst h <;>
    simp [administrator_review_claim_items, hc, hi, hre]

/-! ## Claim theorems -/

/-- C1: the claim says a registration request with a blank field makes no
state change.  On the code, the blank-field check only flashes and falls
through: registering with a blank email on an empty database inserts a
Student row with empty email, and the response flashes both the validation
message and the success message. -/
theorem register_blank_field_inserts_row :
    (student_register (fun p => "hash:" ++ p) dbEmpty none
        "Alice" "s1" "" "12345" "pw" "pw").db.students
      = [{ student_id := "s1", name := "Alice", email := "", phone := "12345",
           password_hash := "hash:pw" }]
  ∧ (student_register (fun p => "hash:" ++ p) dbEmpty none
        "Alice" "s1" "" "12345" "pw" "pw").flashes
      = ["请先输入需要填写的信息！", "您已成功注册，请返回首页登录"] := by
  exact ⟨rfl, rfl⟩

/-- C3: deleting the item removes its two claims and the item row itself,
but — because the stored image reference is a Cloudinary URL, for which
`os.path.exists` is false — the handler issues zero blob-delete calls, not
the one call the claim requires. -/
theorem delete_item_issues_no_blob_call :
    ((delete_item dbWithItemAndClaims none [] 1).db.claims.filter
        (fun c => c.item_id == 1)).length = 0
  ∧ ((delete_item dbWithItemAndClaims none [] 1).db.items.filter
        (fun it => it.id == 1)).length = 0
  ∧ (delete_item dbWithItemAndClaims none [] 1).blobDeleteCalls = 0 := by
  exact ⟨rfl, rfl, rfl⟩

/-- C4: the claim says a successful `change_password` persists a new hash.
On the code, no branch of `student_alterpassword` ever changes the
database — the matching-password branch raises `TypeError` from the
positional `filter_by`, and even read charitably it assigns to an unmapped
attribute and never commits — so the stored `password_hash` is unchanged
for every input, including a valid request for an existing student. -/
theorem alterpassword_never_writes (db : DB) (sess : Option String)
    (student_id new_password confirm_password : String) :
    (student_alterpassword db sess student_id new_password confirm_password).db
      = db :=
  student_alterpassword_db db sess student_id new_password confirm_password

/-- C2: with every field present, when the blob store returns no reference
the upload redirects with the database exactly unchanged (zero new rows);
when it returns a reference, exactly one `LostItem` row is appended, with
status `"pending"` and the returned reference as `image_filename`. -/
theorem upload_blob_atomicity (cloud : String → Option String) (db : DB)
    (sess : Option String)
    (item_name description pickup_time location f : String)
    (hn : item_name ≠ "") (hd : description ≠ "") (ht : pickup_time ≠ "")
    (hl : location ≠ "") :
    (cloud f = none →
       administrator_upload_items cloud db sess item_name description
           pickup_time location (some f)
         = { db := db, session := sess, flashes := ["图片上传失败，请稍后重试"],
             response := .redirect "administrator_upload_items" })
  ∧ (∀ url, cloud f = some url →
       (administrator_upload_items cloud db sess item_name description
           pickup_time location (some f)).db
         = { db with
             items := db.items ++
               [{ id := db.nextItemId, name := item_name,
                  description := description, pickup_time := pickup_time,
                  location := location, status := "pending",
                  image_filename := url }],
             nextItemId := db.nextItemId + 1 }) := by
  have hguard : (item_name == "" || description == "" || pickup_time == ""
      || location == "") = false := by
    simp [hn, hd, ht, hl]
  constructor
  · intro h
    simp [administrator_upload_items, upload_image_to_cloudinary, hguard, h]
  · intro url h
    simp [administrator_upload_items, upload_image_to_cloudinary, hguard, h]

/-- Witness for C2: a failing blob store on a fresh database leaves the
database empty. -/
theorem upload_blob_atomicity_witness :
    administrator_upload_items (fun _ => none) dbEmpty none "wallet" "black"
        "2024-01-01" "library" (some "img")
      = { db := dbEmpty, session := none, flashes := ["图片上传失败，请稍后重试"],
          response := .redirect "administrator_upload_items" } :=
  (upload_blob_atomicity (fun _ => none) dbEmpty none "wallet" "black"
      "2024-01-01" "library" "img" (by decide) (by decide) (by decide)
      (by decide)).1 rfl

/-- C5: login succeeds (redirects to the dashboard) iff a student with the
submitted id exists and the password verifies against its stored hash; on
success the session holds that student's identifier; and the wrong-password
and unknown-id failures both produce the identical outcome `loginFailure`
(same generic flash, same redirect, same untouched state). -/
theorem login_spec (chk : String → String → Bool) (db : DB)
    (sess : Option String) (sid pw : String) :
    ((student_login chk db sess sid pw).response = .redirect "student_dashboard"
       ↔ ∃ s, db.students.find? (fun x => x.student_id == sid) = some s
            ∧ chk s.password_hash pw = true)
  ∧ (∀ s, db.students.find? (fun x => x.student_id == sid) = some s →
       chk s.password_hash pw = true →
       (student_login chk db sess sid pw).session = some s.student_id)
  ∧ (∀ s, db.students.find? (fun x => x.student_id == sid) = some s →
       chk s.password_hash pw = false →
       student_login chk db sess sid pw = loginFailure db sess)
  ∧ (db.students.find? (fun x => x.student_id == sid) = none →
       student_login chk db sess sid pw = loginFailure db sess) := by
  cases hf : db.students.find? (fun x => x.student_id == sid) with
  | none =>
    refine ⟨?_, ?_, ?_, ?_⟩
    · simp [student_login, hf, loginFailure]
    · intro s hs; cases hs
    · intro s hs; cases hs
    · intro _; simp [student_login, hf]
  | some s0 =>
    cases hc : chk s0.password_hash pw with
    | true =>
      refine ⟨?_, ?_, ?_, ?_⟩
      · simp only [student_login, hf, hc, if_true]
        exact iff_of_true trivial ⟨s0, rfl, hc⟩
      · intro s hs hcs
        injection hs with hs
        subst hs
        simp [student_login, hf, hc]
      · intro s hs hcs
        injection hs with hs
        subst hs
        rw [hcs] at hc
        cases hc
      · intro h; cases h
    | false =>
      refine ⟨?_, ?_, ?_, ?_⟩
      · simp only [student_login, hf, hc]
        constructor
        · intro h
          simp [loginFailure] at h
        · rintro ⟨s, hs, hcs⟩
          injection hs with hs
          subst hs
          rw [hcs] at hc
          cases hc
      · intro s hs hcs
        injection hs with hs
        subst hs
        rw [hcs] at hc
        cases hc
      · intro s hs hcs
        injection hs with hs
        subst hs
        simp [student_login, hf, hc]
      · intro h; cases h

/-- Witness for C5: on a one-student database, the correct password logs in
and stores the id in the session, and a wrong password yields exactly the
generic failure outcome. -/
theorem login_spec_witness :
    (student_login (fun h p => h == "hash:" ++ p) dbOneStudent none "s1"
        "pw").session = some "s1"
  ∧ student_login (fun h p => h == "hash:" ++ p) dbOneStudent none "s1" "wrong"
      = loginFailure dbOneStudent none :=
  ⟨(login_spec (fun h p => h == "hash:" ++ p) dbOneStudent none "s1" "pw").2.1
      annStudent rfl (by decide),
   (login_spec (fun h p => h == "hash:" ++ p) dbOneStudent none "s1"
      "wrong").2.2.1 annStudent rfl (by decide)⟩

/-- C6: for an existing claim whose item exists, any decision other than
`"approved"` or `"rejected"` flashes the error message and leaves the
database exactly unchanged (the response is the 500 raised by the
malformed `url_for` call; no row was assigned or committed). -/
theorem review_invalid_decision_no_change (db : DB) (sess : Option String)
    (cid : Nat) (decision : String) (c : Claim)
    (hc : db.claims.find? (fun x => x.id == cid) = some c)
    (it : LostItem)
    (hi : db.items.find? (fun x => x.id == c.item_id) = some it)
    (h1 : decision ≠ "approved") (h2 : decision ≠ "rejected") :
    administrator_review_claim_items db sess cid decision
      = { db := db, session := sess, flashes := ["未知操作，请重试！"],
          response := .serverError "BuildError: url_for needs claim_id" } := by
  simp [administrator_review_claim_items, hc, hi, h1, h2]

/-- Witness for C6: decision `"maybe"` on a concrete claim reports the
error and changes nothing. -/
theorem review_invalid_decision_no_change_witness :
    administrator_review_claim_items dbWithItemAndClaims none 1 "maybe"
      = { db := dbWithItemAndClaims, session := none,
          flashes := ["未知操作，请重试！"],
          response := .serverError "BuildError: url_for needs claim_id" } :=
  review_invalid_decision_no_change dbWithItemAndClaims none 1 "maybe"
    { id := 1, student_name := "Ann", student_id := "s1", item_id := 1,
      phone := "123", status := "pending", reason := "mine" } rfl
    itemWithURL rfl (by decide) (by decide)

/-- C7: for an existing claim whose item exists and a valid decision, the
review sets exactly that claim's status to the decision, touches no item or
student row, and is idempotent: running the same review again returns the
identical outcome and leaves the state unchanged. -/
theorem review_decision_idempotent (db : DB) (sess : Option String)
    (cid : Nat) (decision : String) (c : Claim)
    (hc : db.claims.find? (fun x => x.id == cid) = some c)
    (it : LostItem)
    (hi : db.items.find? (fun x => x.id == c.item_id) = some it)
    (hd : decision = "approved" ∨ decision = "rejected") :
    (administrator_review_claim_items db sess cid decision).db.claims.find?
        (fun x => x.id == cid) = some { c with status := decision }
  ∧ (administrator_review_claim_items db sess cid decision).db.items = db.items
  ∧ (administrator_review_claim_items db sess cid decision).db.students
      = db.students
  ∧ administrator_review_claim_items
        (administrator_review_claim_items db sess cid decision).db sess cid
        decision
      = administrator_review_claim_items db sess cid decision := by
  have h1 := review_valid db sess cid decision hd c hc it hi
  have hfind : (administrator_review_claim_items db sess cid
      decision).db.claims.find? (fun x => x.id == cid)
      = some { c with status := decision } := by
    rw [h1]
    exact find?_map_update db.claims cid decision c hc
  refine ⟨hfind, by rw [h1], by rw [h1], ?_⟩
  have h2 := review_valid (administrator_review_claim_items db sess cid
      decision).db sess cid decision hd { c with status := decision } hfind it
      (by rw [h1]; exact hi)
  rw [h2, h1]
  simp only [Outcome.mk.injEq, and_true, true_and]
  simp only [DB.mk.injEq, eq_self_iff_true, and_true, true_and]
  exact map_update_self db.claims cid decision

/-- Witness for C7: approving claim 1 of the concrete database sets its
status to `"approved"`, and approving again returns the same outcome. -/
theorem review_decision_idempotent_witness :
    (administrator_review_claim_items dbWithItemAndClaims none 1
        "approved").db.claims.find? (fun x => x.id == 1)
      = some { id := 1, student_name := "Ann", student_id := "s1", item_id := 1,
               phone := "123", status := "approved", reason := "mine" }
  ∧ administrator_review_claim_items
        (administrator_review_claim_items dbWithItemAndClaims none 1
          "approved").db none 1 "approved"
      = administrator_review_claim_items dbWithItemAndClaims none 1 "approved" :=
  have h := review_decision_idempotent dbWithItemAndClaims none 1 "approved"
    { id := 1, student_name := "Ann", student_id := "s1", item_id := 1,
      phone := "123", status := "pending", reason := "mine" } rfl
    itemWithURL rfl (Or.inl rfl)
  ⟨h.1, h.2.2.2⟩

/-- C9: a successful administrator login stores nothing in the session, and
every administrator handler (login, dashboard, upload, view, delete,
review) produces the same database, flashes and response for any two
session contents — so in particular `delete_item` and `review_claim` run
unauthenticated. -/
theorem admin_handlers_ignore_session (db : DB) (s1 s2 : Option String)
    (email pw item_name description pickup_time location keyword decision : String)
    (cloud : String → Option String) (img : Option String) (fs : List String)
    (item_id claim_id : Nat) (page : Int) :
    obs (administrator_login db s1 email pw)
      = obs (administrator_login db s2 email pw)
  ∧ (administrator_login db s1 email pw).session = s1
  ∧ obs (administrator_dashboard db s1) = obs (administrator_dashboard db s2)
  ∧ obs (administrator_upload_items cloud db s1 item_name description
        pickup_time location img)
      = obs (administrator_upload_items cloud db s2 item_name description
        pickup_time location img)
  ∧ obs (administrator_view_items db s1 keyword page)
      = obs (administrator_view_items db s2 keyword page)
  ∧ obsFs (delete_item db s1 fs item_id) = obsFs (delete_item db s2 fs item_id)
  ∧ obs (administrator_review_claim_items db s1 claim_id decision)
      = obs (administrator_review_claim_items db s2 claim_id decision) := by
  refine ⟨?_, ?_, rfl, ?_, rfl, ?_, ?_⟩
  · unfold administrator_login; split <;> rfl
  · unfold administrator_login; split <;> rfl
  · unfold administrator_upload_items
    cases img with
    | none => rfl
    | some f =>
      dsimp only
      split
      · rfl
      · unfold upload_image_to_cloudinary
        cases cloud f <;> rfl
  · unfold delete_item
    cases db.items.find? (fun it => it.id == item_id) with
    | none => rfl
    | some item => dsimp only; split <;> rfl
  · unfold administrator_review_claim_items
    cases db.claims.find? (fun c => c.id == claim_id) with
    | none => rfl
    | some c =>
      dsimp only
      cases db.items.find? (fun it => it.id == c.item_id) with
      | none => rfl
      | some it =>
        dsimp only
        split
        · rfl
        · split <;> rfl

/-- C10: in every database reachable from a fresh deployment by any
sequence of handler requests, every `LostItem` row has status `"pending"`:
items are created with the column default and no handler ever assigns to an
item's status. -/
theorem reachable_items_pending (db : DB) (h : Reachable db) :
    ∀ it ∈ db.items, it.status = "pending" := by
  induction h with
  | init => intro it hit; simp [dbEmpty] at hit
  | step _ hs ih =>
    cases hs with
    | login chk sess sid pw =>
      rw [student_login_db]; exact ih
    | register gen sess n sid e ph pw cpw =>
      intro it hit
      rw [student_register_items] at hit
      exact ih it hit
    | alterpassword sess sid np cp =>
      rw [student_alterpassword_db]; exact ih
    | claim sess iid sn sid ph r =>
      intro it hit
      rw [claim_item_items] at hit
      exact ih it hit
    | adminLogin sess e pw =>
      rw [administrator_login_db]; exact ih
    | dashboard sess => exact ih
    | upload cloud sess n d t l img =>
      intro it hit
      rcases upload_items_mem _ _ _ _ _ _ _ _ it hit with h | h
      · exact ih it h
      · exact h
    | deleteItem sess fs iid =>
      intro it hit
      exact ih it (delete_item_items_mem _ _ _ _ it hit)
    | review sess cid dec =>
      intro it hit
      rw [review_items] at hit
      exact ih it hit
    | viewItems sess kw pg => exact ih

/-- Witness for C10: the item in the concrete database reached by uploading
once into a fresh deployment has status `"pending"`. -/
theorem reachable_items_pending_witness :
    ({ id := 1, name := "wallet", description := "black",
       pickup_time := "2024-01-01", location := "library", status := "pending",
       image_filename := "https://res.cloudinary.com/u" } : LostItem).status
      = "pending" :=
  reachable_items_pending
    (administrator_upload_items (fun _ => some "https://res.cloudinary.com/u")
        dbEmpty none "wallet" "black" "2024-01-01" "library" (some "img")).db
    (Reachable.step Reachable.init
      (Step.upload (fun _ => some "https://res.cloudinary.com/u")
        dbEmpty none "wallet" "black" "2024-01-01" "library" (some "img")))
    _ (by decide)

theorem mem_searchBase (db : DB) (kw : String) (x : LostItem) :
    x ∈ searchBase db kw ↔
      x ∈ db.items ∧ (pyStrip kw = "" ∨ strContains x.name (pyStrip kw) = true) := by
  unfold searchBase
  by_cases hk : pyStrip kw = ""
  · simp [hk]
  · simp [hk, List.mem_filter]

theorem mem_take_four_drop {α : Type} (L : List α) (i : Nat) (h : i < L.length) :
    L[i] ∈ (L.drop ((i / 4) * 4)).take 4 := by
  have h4 : i % 4 < 4 := Nat.mod_lt _ (by norm_num)
  have hidx : i / 4 * 4 + i % 4 = i := by omega
  have hlen : i % 4 < ((L.drop ((i / 4) * 4)).take 4).length := by
    simp only [List.length_take, List.length_drop, lt_min_iff]
    exact ⟨h4, by omega⟩
  refine List.mem_iff_getElem.mpr ⟨i % 4, hlen, ?_⟩
  rw [List.getElem_take, List.getElem_drop]
  congr 1

/-- C8: the items the search route renders are at most 4 per page, are
drawn exactly from the items matching the keyword (all items for a blank
keyword, the name-contains matches otherwise — every match appears on some
page), are sorted by `pickup_time` descending in lexical string order,
page 1 is the first 4 of that order, and a page past the end is empty
rather than an error. -/
theorem search_items_spec (db : DB) (kw : String) (page : Int) :
    (student_search_items db kw page).length ≤ 4
  ∧ (∀ x ∈ student_search_items db kw page,
       x ∈ db.items ∧ (pyStrip kw = "" ∨ strContains x.name (pyStrip kw) = true))
  ∧ (∀ x ∈ db.items, (pyStrip kw = "" ∨ strContains x.name (pyStrip kw) = true) →
       ∃ p : Int, x ∈ student_search_items db kw p)
  ∧ List.Sorted pickupDesc (student_search_items db kw page)
  ∧ student_search_items db kw 1 = (searchSorted db kw).take 4
  ∧ (1 ≤ page → (searchBase db kw).length ≤ 4 * (page.toNat - 1) →
       student_search_items db kw page = []) := by
  refine ⟨?_, ?_, ?_, ?_, ?_, ?_⟩
  · unfold student_search_items paginate
    rw [List.length_take]
    exact min_le_left _ _
  · intro x hx
    have hx2 : x ∈ searchSorted db kw := by
      unfold student_search_items paginate at hx
      exact List.drop_subset _ _ (List.take_subset _ _ hx)
    have hx3 : x ∈ searchBase db kw := (List.mem_insertionSort pickupDesc).mp hx2
    exact (mem_searchBase db kw x).mp hx3
  · intro x hxi hmatch
    have hx3 : x ∈ searchBase db kw := (mem_searchBase db kw x).mpr ⟨hxi, hmatch⟩
    have hx2 : x ∈ searchSorted db kw := (List.mem_insertionSort pickupDesc).mpr hx3
    obtain ⟨i, hi, hget⟩ := List.mem_iff_getElem.mp hx2
    refine ⟨((i / 4 : Nat) : Int) + 1, ?_⟩
    have hp1 : ¬ (((i / 4 : Nat) : Int) + 1 < 1) := by
      have : (0 : Int) ≤ ((i / 4 : Nat) : Int) := Int.natCast_nonneg _
      omega
    have hp2 : (((i / 4 : Nat) : Int) + 1).toNat = i / 4 + 1 := by
      omega
    unfold student_search_items paginate
    rw [if_neg hp1, hp2]
    simp only [Nat.add_sub_cancel]
    exact hget ▸ mem_take_four_drop (searchSorted db kw) i hi
  · have hsorted : List.Sorted pickupDesc (searchSorted db kw) :=
      List.sorted_insertionSort pickupDesc (searchBase db kw)
    unfold student_search_items paginate
    exact hsorted.sublist ((List.take_sublist _ _).trans (List.drop_sublist _ _))
  · rfl
  · intro h1 h2
    have hnot : ¬ page < 1 := not_lt.mpr h1
    have hlen : (searchSorted db kw).length = (searchBase db kw).length :=
      (List.perm_insertionSort pickupDesc (searchBase db kw)).length_eq
    unfold student_search_items paginate
    rw [if_neg hnot]
    have hdrop : (searchSorted db kw).drop ((page.toNat - 1) * 4) = [] := by
      apply List.drop_eq_nil_of_le
      omega
    dsimp only
    rw [hdrop, List.take_nil]

/-- Witness for C8: the item named `"wallet"` is found under keyword
`"wallet"` on some page of the concrete database, and page 5 of a
one-item listing is empty. -/
theorem search_items_spec_witness :
    (∃ p : Int, itemWithURL ∈ student_search_items dbWithItemAndClaims "wallet" p)
  ∧ student_search_items dbWithItemAndClaims "wallet" 5 = [] :=
  ⟨(search_items_spec dbWithItemAndClaims "wallet" 1).2.2.1 itemWithURL
      (by simp [dbWithItemAndClaims]) (Or.inr (by decide)),
   (search_items_spec dbWithItemAndClaims "wallet" 5).2.2.2.2.2 (by decide)
      (by decide)⟩

end LostFound
